import Mathlib

/-!
Verification development for the python-blockstream repository.

The Python 2 sources are shallowly embedded: byte strings become `List Nat`
(each entry one byte), `struct.pack`/`struct.unpack` calls become explicit
little-endian encoders and exact-length readers, and code that can raise a
Python exception returns `Except String α`.  Exception messages are modelled
as fixed strings (the `%`-interpolated values of the originals are dropped).

Embedded files: blockstream.py (`BS3DataBlockHeader`), p_posi.py,
p_bxpd.py, bs_reader.py (`BS3SingleProtocolReader.run`,
`BS3MultiProtocolReader`).
-/

namespace Blockstream

/-- Little-endian byte encoding: `leBytes k n` is `n % 2^(8*k)` in `k` bytes,
least significant first (the layout of a `<`-prefixed struct field). -/
def leBytes : Nat → Nat → List Nat
  | 0, _ => []
  | k + 1, n => (n % 256) :: leBytes k (n / 256)

/-- Value of a little-endian byte list. -/
def leVal : List Nat → Nat
  | [] => 0
  | b :: bs => b + 256 * leVal bs

/-- `data[off : off + k]` (Python slicing clamps at the end of the list). -/
def sliceBytes (data : List Nat) (off k : Nat) : List Nat :=
  (data.drop off).take k

/-- Interpret a `Nat` below `2^64` as the signed int64 it decodes to. -/
def toI64 (n : Nat) : Int :=
  if n < 2 ^ 63 then (n : Int) else (n : Int) - 2 ^ 64

/-- Interpret a `Nat` below `2^16` as the signed int16 it decodes to. -/
def toI16 (n : Nat) : Int :=
  if n < 2 ^ 15 then (n : Int) else (n : Int) - 2 ^ 16

/-- One little-endian unsigned field read: `unpack` of `k` bytes at `off`,
returning the value and the advanced offset.  `struct.unpack` demands that
the slice have exactly the size of the format, so a read past the end of the
data raises. -/
def readLE (k : Nat) (data : List Nat) (off : Nat) : Except String (Nat × Nat) :=
  if off + k ≤ data.length then Except.ok (leVal (sliceBytes data off k), off + k)
  else Except.error "unpack str size does not match format"

/-- Field kinds of the struct format characters used by the sources
(B, H, I, Q, q, h, i, 4s). -/
inductive SField
  | u8
  | u16
  | u32
  | u64
  | i64
  | i32
  | i16
  | s4
deriving DecidableEq

/-- Byte size of a field (struct calcsize contribution). -/
def SField.size : SField → Nat
  | .u8 => 1
  | .u16 => 2
  | .u32 => 4
  | .u64 => 8
  | .i64 => 8
  | .i32 => 4
  | .i16 => 2
  | .s4 => 4

/-- `struct.calcsize` of a format. -/
def structCalcsize (fmt : List SField) : Nat :=
  (fmt.map SField.size).sum

/-- An argument passed to `struct.pack`. -/
inductive PackVal
  | nat (n : Nat)
  | int (i : Int)
  | str (s : List Nat)
deriving DecidableEq

/-- Pack a single field, with the range checks `struct.pack` performs on
standard-size (`<`-prefixed) formats.  `4s` pads with NUL bytes or
truncates, without error. -/
def packOne : SField → PackVal → Except String (List Nat)
  | .u8, .nat n =>
    if n < 2 ^ 8 then Except.ok (leBytes 1 n)
    else Except.error "ubyte format requires 0 <= number <= 255"
  | .u16, .nat n =>
    if n < 2 ^ 16 then Except.ok (leBytes 2 n)
    else Except.error "short format requires 0 <= number <= 65535"
  | .u32, .nat n =>
    if n < 2 ^ 32 then Except.ok (leBytes 4 n)
    else Except.error "integer out of range for I format code"
  | .u64, .nat n =>
    if n < 2 ^ 64 then Except.ok (leBytes 8 n)
    else Except.error "integer out of range for Q format code"
  | .i64, .int i =>
    if -(2 ^ 63) ≤ i ∧ i < 2 ^ 63 then Except.ok (leBytes 8 ((i % (2 ^ 64)).toNat))
    else Except.error "integer out of range for q format code"
  | .i32, .int i =>
    if -(2 ^ 31) ≤ i ∧ i < 2 ^ 31 then Except.ok (leBytes 4 ((i % (2 ^ 32)).toNat))
    else Except.error "integer out of range for i format code"
  | .i16, .int i =>
    if -(2 ^ 15) ≤ i ∧ i < 2 ^ 15 then Except.ok (leBytes 2 ((i % (2 ^ 16)).toNat))
    else Except.error "integer out of range for h format code"
  | .s4, .str s => Except.ok (s.take 4 ++ List.replicate (4 - s.length) 0)
  | _, _ => Except.error "required argument is not an integer"

/-- `struct.pack(fmt, *args)`: the argument count is checked against the
format first; only then is each field packed in order. -/
def packStruct (fmt : List SField) (args : List PackVal) : Except String (List Nat) :=
  if args.length = fmt.length then
    ((fmt.zip args).mapM (fun p => packOne p.1 p.2)).map List.flatten
  else
    Except.error ("pack expected " ++ toString fmt.length ++
      " items for packing (got " ++ toString args.length ++ ")")

/-- The tier-1 frame header of blockstream.py (`BS3DataBlockHeader`): the
decoded value has the five constructor fields; `version`, `type_code` and
`header_size` are class constants. -/
structure BS3DataBlockHeader where
  block_size : Nat
  writer_id : Nat
  block_index : Nat
  time_stamp : Int
  block_code : List Nat
deriving DecidableEq

/-- Class constant `version = 3`. -/
def BS3DataBlockHeader.version : Nat := 3

/-- Class constant `type_code = 1`. -/
def BS3DataBlockHeader.type_code : Nat := 1

/-- Class constant `header_size = 31`. -/
def BS3DataBlockHeader.header_size : Nat := 31

/-- The binary signature `'<BIHHQqB4sQ'` of `BS3DataBlockHeader`:
B I H H Q q B 4s Q in declared order. -/
def BS3DataBlockHeader.signature : List SField :=
  [.u8, .u32, .u16, .u16, .u64, .i64, .u8, .s4, .u64]

/-- `BS3DataBlockHeader.__len__() = calcsize(signature)`. -/
def BS3DataBlockHeader.len : Nat :=
  structCalcsize BS3DataBlockHeader.signature

/-- `BS3DataBlockHeader.payload` (blockstream.py lines 99-110): packs the
signature with the eight values
(version, block_size, header_size, writer_id, block_index, time_stamp,
block_code, 0) — the signature has nine fields. -/
def BS3DataBlockHeader.payload (h : BS3DataBlockHeader) : Except String (List Nat) :=
  packStruct BS3DataBlockHeader.signature
    [.nat BS3DataBlockHeader.version, .nat h.block_size,
     .nat BS3DataBlockHeader.header_size, .nat h.writer_id,
     .nat h.block_index, .int h.time_stamp, .str h.block_code, .nat 0]

/-- `BS3DataBlockHeader.from_data` (blockstream.py lines 117-129): requires
`len(data) >= __len__()`, unpacks the signature from `data[:__len__()]`
(field offsets 0, 1, 5, 7, 9, 17, 25, 26, 30), rejects a wrong protocol
version or a type-code byte other than 1, and drops `hsz`, `tcd` and the
reserved field `xxx` from the returned value. -/
def BS3DataBlockHeader.from_data (data : List Nat) : Except String BS3DataBlockHeader :=
  if data.length < BS3DataBlockHeader.len then
    Except.error "data must have len >= 38"
  else
    let ver := leVal (sliceBytes data 0 1)
    let bsz := leVal (sliceBytes data 1 4)
    let _hsz := leVal (sliceBytes data 5 2)
    let wid := leVal (sliceBytes data 7 2)
    let bix := leVal (sliceBytes data 9 8)
    let tsp := toI64 (leVal (sliceBytes data 17 8))
    let tcd := leVal (sliceBytes data 25 1)
    let bcd := sliceBytes data 26 4
    let _xxx := leVal (sliceBytes data 30 8)
    if ver ≠ BS3DataBlockHeader.version ∨ tcd ≠ BS3DataBlockHeader.type_code then
      Except.error "invalid protocol version or blocktype!"
    else
      Except.ok ⟨bsz, wid, bix, tsp, bcd⟩

/-- Read `count` little-endian fields of `k` bytes each (one `unpack` of a
repeated format, or equivalently successive exact-length reads). -/
def readLEs (k : Nat) : Nat → List Nat → Nat → Except String (List Nat × Nat)
  | 0, _, off => Except.ok ([], off)
  | c + 1, data, off => do
    let (v, off1) ← readLE k data off
    let (vs, off2) ← readLEs k c data off1
    return (v :: vs, off2)

/-- The tier-2 header of p_posi.py (`BS3PosiBlockHeader`, signature `'<BB'`,
version 1): block type 0 = setup, 1 = info/data, 2 = steering. -/
structure BS3PosiBlockHeader where
  block_type : Nat
deriving DecidableEq

/-- Class constant `version = 1` of `BS3PosiBlockHeader`. -/
def BS3PosiBlockHeader.version : Nat := 1

/-- `BS3PosiBlockHeader.payload`: `pack('<BB', version, block_type)`. -/
def BS3PosiBlockHeader.payload (h : BS3PosiBlockHeader) : Except String (List Nat) :=
  packStruct [.u8, .u8] [.nat BS3PosiBlockHeader.version, .nat h.block_type]

/-- `BS3PosiSetupBlock` (p_posi.py): a header and the subscribed group
indices (the source stores each group as a 1-tuple `(grp_idx,)`). -/
structure BS3PosiSetupBlock where
  header : BS3PosiBlockHeader
  group_lst : List Nat
deriving DecidableEq

/-- `BS3PosiSetupBlock.payload` (p_posi.py lines 112-119): header bytes,
`pack('<H', len(group_lst))`, then `pack('<H', grp_idx)` per group. -/
def BS3PosiSetupBlock.payload (b : BS3PosiSetupBlock) : Except String (List Nat) := do
  let hd ← b.header.payload
  let cnt ← packStruct [.u16] [.nat b.group_lst.length]
  let gs ← b.group_lst.mapM (fun g => packStruct [.u16] [.nat g])
  return hd ++ cnt ++ gs.flatten

/-- `BS3PosiSetupBlock.from_data(header, data)` (p_posi.py lines 128-145):
decodes the u16 group count and the group indices, then executes
`return BS3PosiSetupBlock(header, group_lst)`.  The constructor signature is
`__init__(self, group_lst, header=None)`, so the header object is bound to
the `group_lst` parameter and `list(group_lst)` iterates over a
`BS3PosiBlockHeader`, raising `TypeError`. -/
def BS3PosiSetupBlock.from_data (_header : BS3PosiBlockHeader) (data : List Nat) :
    Except String BS3PosiSetupBlock := do
  let (ngroup, off) ← readLE 2 data 0
  let (_group_lst, _off1) ← readLEs 2 ngroup data off
  throw "TypeError: iteration over non-sequence"

/-- `BS3PosiDataBlock` (p_posi.py): (group, position) pairs. -/
structure BS3PosiDataBlock where
  header : BS3PosiBlockHeader
  grp_lst : List (Nat × Nat)
deriving DecidableEq

/-- `BS3PosiDataBlock.payload` (p_posi.py lines 168-175): header bytes,
`pack('<H', len(grp_lst))`, then `pack('<HQ', group_nr, position)` each. -/
def BS3PosiDataBlock.payload (b : BS3PosiDataBlock) : Except String (List Nat) := do
  let hd ← b.header.payload
  let cnt ← packStruct [.u16] [.nat b.grp_lst.length]
  let gs ← b.grp_lst.mapM (fun g => packStruct [.u16, .u64] [.nat g.1, .nat g.2])
  return hd ++ cnt ++ gs.flatten

/-- `BS3PosiDataBlock.from_data(data, header=None)` (p_posi.py lines
184-201): u16 count, then 10-byte `'<HQ'` records. -/
def BS3PosiDataBlock.from_data (data : List Nat) (header : Option BS3PosiBlockHeader) :
    Except String BS3PosiDataBlock := do
  let (ngrp, off) ← readLE 2 data 0
  let (pairs, _off1) ← readPairs ngrp data off
  return ⟨header.getD ⟨1⟩, pairs⟩
where
  /-- the loop body `unpack('<HQ', data[at:at + 10])`, `ngrp` times. -/
  readPairs : Nat → List Nat → Nat → Except String (List (Nat × Nat) × Nat)
    | 0, _, off => Except.ok ([], off)
    | c + 1, data, off => do
      let (g, off1) ← readLE 2 data off
      let (p, off2) ← readLE 8 data off1
      let (rest, off3) ← readPairs c data off2
      return ((g, p) :: rest, off3)

/-- The tier-2 header of p_bxpd.py (`BS3BxpdBlockHeader`, signature `'<BB'`,
version 3): block type 0 = setup, 1 = data. -/
structure BS3BxpdBlockHeader where
  block_type : Nat
deriving DecidableEq

/-- Class constant `version = 3` of `BS3BxpdBlockHeader`. -/
def BS3BxpdBlockHeader.version : Nat := 3

/-- `BS3BxpdBlockHeader.payload`: `pack('<BB', version, block_type)`. -/
def BS3BxpdBlockHeader.payload (h : BS3BxpdBlockHeader) : Except String (List Nat) :=
  packStruct [.u8, .u8] [.nat BS3BxpdBlockHeader.version, .nat h.block_type]

/-- `BS3BxpdDataBlock` (p_bxpd.py): (start, end) timestamps, per-sample-rate
offsets, analog sample chunks (docstring: `values::int16[]`), and
digital/event edge lists.  `__init__` always sets the header to
`BS3BxpdBlockHeader(1)`. -/
structure BS3BxpdDataBlock where
  header : BS3BxpdBlockHeader
  time_stamp : Nat × Nat
  srate_lst : List Nat
  anchan_lst : List (List Int)
  dichan_lst : List (Nat × Nat × Nat)
  evchan_lst : List (Nat × Nat × Nat)
deriving DecidableEq

/-- The length prefix written for one analog chunk (p_bxpd.py lines
286-291): a single byte when `anchan_len < 256`, otherwise the escape byte
255 followed by the explicit 64-bit length. -/
def anchanLenBytes (anchan_len : Nat) : Except String (List Nat) :=
  if anchan_len < 256 then packStruct [.u8] [.nat anchan_len]
  else packStruct [.u8, .u64] [.nat 255, .nat anchan_len]

/-- One analog chunk as written by `BS3BxpdDataBlock.payload` (p_bxpd.py
lines 286-292): the length prefix, then `pack('<%di' % len(anchan),
*anchan)` — note the `i` (int32) sample format. -/
def packAnchan (chunk : List Int) : Except String (List Nat) := do
  let pre ← anchanLenBytes chunk.length
  let vals ← packStruct (List.replicate chunk.length SField.i32) (chunk.map PackVal.int)
  return pre ++ vals

/-- `BS3BxpdDataBlock.payload` (p_bxpd.py lines 281-299): header bytes,
`pack('<QQ', *time_stamp)`, then `pack('<B%dQ', len(srate_lst),
*srate_lst)` — the format string is missing its `%` interpolation, so
struct receives the literal format `'<B%dQ'` and rejects the `%` character —
then the analog chunks (no list count is written before them), and the
u32-count-prefixed digital and event edge lists. -/
def BS3BxpdDataBlock.payload (b : BS3BxpdDataBlock) : Except String (List Nat) := do
  let hd ← b.header.payload
  let ts ← packStruct [.u64, .u64] [.nat b.time_stamp.1, .nat b.time_stamp.2]
  let sr ← (Except.error "bad char in struct format" : Except String (List Nat))
  let ans ← b.anchan_lst.mapM packAnchan
  let dcnt ← packStruct [.u32] [.nat b.dichan_lst.length]
  let dis ← b.dichan_lst.mapM
    (fun d => packStruct [.u16, .u64, .u8] [.nat d.1, .nat d.2.1, .nat d.2.2])
  let ecnt ← packStruct [.u32] [.nat b.evchan_lst.length]
  let evs ← b.evchan_lst.mapM
    (fun e => packStruct [.u16, .u64, .u8] [.nat e.1, .nat e.2.1, .nat e.2.2])
  return hd ++ ts ++ sr ++ ans.flatten ++ dcnt ++ dis.flatten ++ ecnt ++ evs.flatten

/-- Reading one analog chunk length (p_bxpd.py lines 336-340): one byte; if
it equals 255 that is the escape marker and the explicit 64-bit length is
read next. -/
def readAnchanLen (data : List Nat) (off : Nat) : Except String (Nat × Nat) := do
  let (n, off1) ← readLE 1 data off
  if n = 255 then readLE 8 data off1 else return (n, off1)

/-- Reading the int16 sample values of one chunk: `unpack('<%dh' %
anchan_len, data[at:at + anchan_len * 2])` (p_bxpd.py line 341). -/
def readI16s : Nat → List Nat → Nat → Except String (List Int × Nat)
  | 0, _, off => Except.ok ([], off)
  | c + 1, data, off => do
    let (v, off1) ← readLE 2 data off
    let (vs, off2) ← readI16s c data off1
    return (toI16 v :: vs, off2)

/-- One analog chunk as read by `BS3BxpdDataBlock.from_data` (p_bxpd.py
lines 335-343): the possibly escaped length, then that many int16 values. -/
def readAnchanChunk (data : List Nat) (off : Nat) : Except String (List Int × Nat) := do
  let (n, off1) ← readAnchanLen data off
  readI16s n data off1

/-- The analog chunk loop of `from_data`, `nanchan` times. -/
def readAnchans : Nat → List Nat → Nat → Except String (List (List Int) × Nat)
  | 0, _, off => Except.ok ([], off)
  | c + 1, data, off => do
    let (ch, off1) ← readAnchanChunk data off
    let (rest, off2) ← readAnchans c data off1
    return (ch :: rest, off2)

/-- The `'<HQB'` edge-record loops of `from_data` (p_bxpd.py lines 348-361),
11 bytes per record. -/
def readEdges : Nat → List Nat → Nat → Except String (List (Nat × Nat × Nat) × Nat)
  | 0, _, off => Except.ok ([], off)
  | c + 1, data, off => do
    let (ch, off1) ← readLE 2 data off
    let (t, off2) ← readLE 8 data off1
    let (e, off3) ← readLE 1 data off2
    let (rest, off4) ← readEdges c data off3
    return ((ch, t, e) :: rest, off4)

/-- `BS3BxpdDataBlock.from_data(header, data)` (p_bxpd.py lines 312-362):
reads the timestamps, the u8-counted u64 offsets, a u16 analog chunk count
(which `payload` never writes), the chunks, and the two u32-counted edge
lists, then executes `return BS3BxpdDataBlock(header, time_stamp, srate_lst,
anchan_lst, dichan_lst, evchan_lst)` — six positional arguments against
`__init__(self, time_stamp, srate_lst, anchan_lst, dichan_lst, evchan_lst)`,
which raises `TypeError`. -/
def BS3BxpdDataBlock.from_data (_header : BS3BxpdBlockHeader) (data : List Nat) :
    Except String BS3BxpdDataBlock := do
  let (_t1, off1) ← readLE 8 data 0
  let (_t2, off2) ← readLE 8 data off1
  let (nsrate, off3) ← readLE 1 data off2
  let (_srates, off4) ← readLEs 8 nsrate data off3
  let (nanchan, off5) ← readLE 2 data off4
  let (_anchans, off6) ← readAnchans nanchan data off5
  let (ndichan, off7) ← readLE 4 data off6
  let (_dichans, off8) ← readEdges ndichan data off7
  let (nevchan, off9) ← readLE 4 data off8
  let (_evchans, _off10) ← readEdges nevchan data off9
  throw "TypeError: __init__ takes exactly 6 arguments (7 given)"

/-- A tier-2 protocol bundle as looked up in the `PROTOCOLS` registry of
bs_reader.py: the 4-byte protocol code (also the registry key the reader is
bound to), the tier-2 header version, the block types registered in the
protocol's `PROT` dict, and the per-type `from_data` outcome. -/
structure ProtocolEntry where
  code : List Nat
  headerVersion : Nat
  blockTypes : List Nat
  blockDecode : Nat → List Nat → Except String Unit

/-- The generic tier-2 header `from_data` (signature `'<BB'`): requires two
bytes, rejects a version mismatch, returns the block type. -/
def tier2HeaderDecode (entry : ProtocolEntry) (data : List Nat) : Except String Nat :=
  if data.length < 2 then Except.error "data must have len >= 2"
  else if data.getD 0 0 ≠ entry.headerVersion then Except.error "invalid protocol version!"
  else Except.ok (data.getD 1 0)

/-- `BS3PosiSetupBlock.from_data` raises at its constructor call, and
`BS3PosiDataBlock.from_data(data, header=None)` / the identical steer-block
decoder are invoked by the reader as `blk_cls.from_data(header, data[at:])`,
binding the header object to the `data` parameter, whose first slicing
raises `TypeError`.  Type 3 and above are unreachable behind the registry
membership test (a `KeyError` otherwise). -/
def posiBlockDecode (bt : Nat) (body : List Nat) : Except String Unit :=
  match bt with
  | 0 => (BS3PosiSetupBlock.from_data ⟨bt⟩ body).map (fun _ => ())
  | 1 => Except.error "TypeError: BS3PosiBlockHeader object is unsubscriptable"
  | 2 => Except.error "TypeError: BS3PosiBlockHeader object is unsubscriptable"
  | _ => Except.error "KeyError"

/-- The `'POSI'` registry entry: code `'POSI'`, `BS3PosiBlockHeader.version`,
and the block-type keys 0, 1, 2 of `p_posi.PROT`. -/
def posiEntry : ProtocolEntry :=
  { code := [80, 79, 83, 73]
  , headerVersion := BS3PosiBlockHeader.version
  , blockTypes := [0, 1, 2]
  , blockDecode := posiBlockDecode }

/-- What the reader pushes on its output queue: the
`(protocol_id, reader_id)` tuple from `start_blockstream`, a decoded tier-2
block, or the `None` sentinel from `stop_blockstream`. -/
inductive ReaderMsg
  | started
  | block (blockType : Nat)
  | sentinel
deriving DecidableEq

/-- Effect of handling one delivered frame: the messages pushed to the
output queue, whether `releaseBlock` ran, and the uncaught exception if one
propagated. -/
structure StepResult where
  output : List ReaderMsg
  released : Bool
  fatal : Option String
deriving DecidableEq

/-- One frame of `BS3SingleProtocolReader.run` (bs_reader.py lines
159-186).  An undersized frame raises `BS3Error('bad block size!')`; a
tier-1 or tier-2 decode exception propagates (there is no try/except in the
loop); a frame for another protocol, or an unregistered block type, is only
logged, then the buffer is released and the loop continues; a decoded block
is pushed before the release. -/
def processFrame (entry : ProtocolEntry) (data : List Nat) : StepResult :=
  if data.length < BS3DataBlockHeader.len then
    { output := [], released := false, fatal := some "bad block size!" }
  else
    match BS3DataBlockHeader.from_data (data.take BS3DataBlockHeader.len) with
    | .error e => { output := [], released := false, fatal := some e }
    | .ok blk_h =>
      if blk_h.block_code = entry.code then
        match tier2HeaderDecode entry (sliceBytes data BS3DataBlockHeader.len 2) with
        | .error e => { output := [], released := false, fatal := some e }
        | .ok bt =>
          if bt ∈ entry.blockTypes then
            match entry.blockDecode bt (data.drop (BS3DataBlockHeader.len + 2)) with
            | .error e => { output := [], released := false, fatal := some e }
            | .ok _ => { output := [ReaderMsg.block bt], released := true, fatal := none }
          else { output := [], released := true, fatal := none }
      else { output := [], released := true, fatal := none }

/-- One poll of the transport: a timeout (loop again) or a delivered frame. -/
inductive PollItem
  | timeout
  | frame (data : List Nat)

/-- Outcome of the reader thread: everything pushed to the output queue,
whether `_is_shutdown.set()` was reached, and the exception that killed the
thread if one did. -/
structure RunResult where
  outputs : List ReaderMsg
  shutdownEventSet : Bool
  fatal : Option String
deriving DecidableEq

/-- The doomsday loop of `BS3SingleProtocolReader.run` (bs_reader.py lines
146-192) over a schedule of poll results; an empty schedule is the stop
flag being observed.  On a normal exit `stop_blockstream` pushes the `None`
sentinel and `_is_shutdown.set()` runs; an exception propagates out of
`run`, skipping both. -/
def runLoop (entry : ProtocolEntry) : List PollItem → RunResult
  | [] => { outputs := [ReaderMsg.sentinel], shutdownEventSet := true, fatal := none }
  | PollItem.timeout :: rest => runLoop entry rest
  | PollItem.frame d :: rest =>
    let r := processFrame entry d
    match r.fatal with
    | some e => { outputs := r.output, shutdownEventSet := false, fatal := some e }
    | none =>
      let k := runLoop entry rest
      { outputs := r.output ++ k.outputs, shutdownEventSet := k.shutdownEventSet
      , fatal := k.fatal }

/-- `BS3SingleProtocolReader.run`: `start_blockstream` first pushes the
`(protocol_id, reader_id)` tuple, then the loop runs. -/
def runReader (entry : ProtocolEntry) (polls : List PollItem) : RunResult :=
  let k := runLoop entry polls
  { outputs := ReaderMsg.started :: k.outputs, shutdownEventSet := k.shutdownEventSet
  , fatal := k.fatal }

/-- A decoded tier-2 block as carried on the multiplexer's data queue.
Modelled from the spec: `BS3BaseBlock` (imported by bs_reader.py but absent
from this snapshot of blockstream.py) carries the tier-2 header, read as
`item.header.block_type`, and the protocol code read as `item.BLOCKCODE`;
per spec §3 a block belongs to one protocol and block type 0 is the setup
variant.  `payload_id` distinguishes block instances. -/
structure MPBlock where
  blockcode : String
  block_type : Nat
  payload_id : Nat
deriving DecidableEq

/-- A message put on a listener queue by the multiplexer: the assigned id,
Python `None`, or a forwarded block. -/
inductive MPMsg
  | id (n : Nat)
  | noneMsg
  | block (b : MPBlock)
deriving DecidableEq

/-- Contents of one listener queue, oldest first. -/
abbrev ListenerQueue := List MPMsg

/-- One of the 2-element lists `[None, None]` held in `self._protocol`:
slot `IDX_THR = 0` (the sub-reader thread) and slot `IDX_PAM = 1` (the
cached preamble). -/
structure ProtCell where
  thr : Option Nat
  pam : Option MPBlock
deriving DecidableEq

/-- State owned by the `BS3MultiProtocolReader` worker: the protocol ids,
the heap of 2-element lists, the `self._protocol` dict as a map from
protocol id to a heap index, and the listener dict with each listener's
queue contents. -/
structure MPState where
  protocol_ids : List String
  cells : List ProtCell
  protocolDict : List (String × Nat)
  listeners : List (Nat × ListenerQueue)
deriving DecidableEq

/-- `self._protocol = dict(zip(self._protocol_ids, [[None] * 2] *
len(self._protocol_ids)))` (bs_reader.py line 241): the list multiplication
creates ONE `[None, None]` object, and every protocol id is mapped to that
same object (heap index 0). -/
def mpInit (protocolIds : List String) : MPState :=
  { protocol_ids := protocolIds
  , cells := if protocolIds.isEmpty then [] else [{ thr := none, pam := none }]
  , protocolDict := protocolIds.map (fun p => (p, 0))
  , listeners := [] }

/-- `self._protocol[prot][IDX_PAM]`: the cached preamble seen through a
protocol's dict entry. -/
def MPState.pamOf (s : MPState) (prot : String) : Option MPBlock :=
  match s.protocolDict.lookup prot with
  | some i =>
    match s.cells.get? i with
    | some c => c.pam
    | none => none
  | none => none

/-- The id-assignment loop of the registration handler (bs_reader.py lines
292-296): `lst_id = 0` then increment while `lst_id in self._listeners`,
here with explicit fuel. -/
def findFreeFrom (used : List Nat) : Nat → Nat → Nat
  | 0, cur => cur
  | fuel + 1, cur => if cur ∈ used then findFreeFrom used fuel (cur + 1) else cur

/-- The id the loop settles on: `used.length + 1` steps always suffice. -/
def freshListenerId (used : List Nat) : Nat :=
  findFreeFrom used (used.length + 1) 0

/-- One turn of the preamble-reply loop (bs_reader.py lines 299-301):
`if self._protocol[prot][IDX_PAM] is None: item.put(self._protocol[prot][IDX_PAM])`
— the condition is `is None`, and what is put is that `None`. -/
def replyStep (s : MPState) (q : ListenerQueue) (prot : String) : ListenerQueue :=
  match s.pamOf prot with
  | none => q ++ [MPMsg.noneMsg]
  | some _ => q

/-- Everything put on the requester's queue during registration
(bs_reader.py lines 298-301): first `item.put(lst_id)`, then the
preamble-reply loop over `self._protocol_ids`. -/
def registrationReplies (s : MPState) (lst_id : Nat) : ListenerQueue :=
  s.protocol_ids.foldl (replyStep s) [MPMsg.id lst_id]

/-- One registration request (bs_reader.py lines 289-302): the smallest
unused id is assigned, stored in `self._listeners`, and the reply messages
are put on the requester's queue (which is the stored listener queue). -/
def handleRegistration (s : MPState) : MPState × ListenerQueue :=
  let lst_id := freshListenerId (s.listeners.map Prod.fst)
  let q := registrationReplies s lst_id
  ({ s with listeners := s.listeners ++ [(lst_id, q)] }, q)

/-- One block taken from the data queue (bs_reader.py lines 305-312; items
that are not `BS3BaseBlock` instances are skipped entirely by the
`isinstance` test): if `item.header.block_type == 0` the block is stored in
slot `IDX_PAM` of the cell `self._protocol[item.BLOCKCODE]` refers to, then
the item is put on every listener queue. -/
def handleDataItem (s : MPState) (item : MPBlock) : Except String MPState := do
  let s1 ←
    if item.block_type = 0 then
      match s.protocolDict.lookup item.blockcode with
      | some i =>
        match s.cells.get? i with
        | some c => pure { s with cells := s.cells.set i { c with pam := some item } }
        | none => throw "IndexError: list index out of range"
      | none => throw "KeyError"
    else pure s
  return { s1 with
           listeners := s1.listeners.map (fun lq => (lq.1, lq.2 ++ [MPMsg.block item])) }

/-- A POSI setup block with a zero-length group list. -/
def posiSetupEx : BS3PosiSetupBlock := ⟨⟨0⟩, []⟩

/-- A BXPD data block with all lists empty. -/
def bxpdDataEx : BS3BxpdDataBlock := ⟨⟨1⟩, (0, 0), [], [], [], []⟩

/-- A BXPD data block with one analog chunk of 255 zero samples. -/
def bxpdData255 : BS3BxpdDataBlock := ⟨⟨1⟩, (0, 0), [], [List.replicate 255 0], [], []⟩

/-- A frame header with the constructor's default values (`block_code`
is `'WOOT'`). -/
def frameHeaderEx : BS3DataBlockHeader := ⟨31, 0, 0, 0, [87, 79, 79, 84]⟩

/-- The default frame header with `block_index = 2^64 - 1`. -/
def frameHeaderMaxIdx : BS3DataBlockHeader := ⟨31, 0, 2 ^ 64 - 1, 0, [87, 79, 79, 84]⟩

/-- The intended 31-byte wire image of `frameHeaderEx`: version 3,
totalSize 31, headerSize 31, writerId 0, blockIndex 0, timestamp 0,
type-code 1, `'WOOT'`, one reserved byte. -/
def frame31 : List Nat :=
  [3, 31, 0, 0, 0, 31, 0, 0, 0] ++ List.replicate 16 0 ++ [1, 87, 79, 79, 84, 0]

/-- The same frame with the 8-byte reserved field the signature actually
declares: 38 bytes. -/
def frame38 : List Nat :=
  [3, 31, 0, 0, 0, 31, 0, 0, 0] ++ List.replicate 16 0 ++ [1, 87, 79, 79, 84] ++
    List.replicate 8 0

/-- A 1-byte frame: its declared size is below the frame-header length. -/
def undersizedFrame : List Nat := [0]

/-- A 38-byte frame whose version byte is 4 instead of 3. -/
def badVersionFrame : List Nat := 4 :: List.replicate 37 0

/-- A well-formed 38-byte frame whose protocol code is `'WOOT'`, not the
POSI reader's `'POSI'`. -/
def foreignFrame : List Nat :=
  [3, 0, 0, 0, 0, 0, 0, 0, 0] ++ List.replicate 16 0 ++ [1, 87, 79, 79, 84] ++
    List.replicate 8 0

/-- A 40-byte POSI frame whose tier-2 header carries the valid version 1 but
block type 7, which `p_posi.PROT` does not register. -/
def unknownTypeFrame : List Nat :=
  [3, 0, 0, 0, 0, 0, 0, 0, 0] ++ List.replicate 16 0 ++ [1, 80, 79, 83, 73] ++
    List.replicate 8 0 ++ [1, 7]

/-- A SORT setup block as seen by the multiplexer. -/
def sortSetupEx : MPBlock := ⟨"SORT", 0, 7⟩

/-- The multiplexer state after `mpInit ["BXPD", "SORT"]`, one registered
listener with id 0, and the arrival of `sortSetupEx`. -/
def mpAfterSetup : MPState :=
  { protocol_ids := ["BXPD", "SORT"]
  , cells := [{ thr := none, pam := some sortSetupEx }]
  , protocolDict := [("BXPD", 0), ("SORT", 0)]
  , listeners := [(0, [MPMsg.block sortSetupEx])] }

/-- A multiplexer state whose listener dict holds the ids 0, 1 and 3. -/
def mpStateEx : MPState :=
  { protocol_ids := ["POSI"]
  , cells := [{ thr := none, pam := none }]
  , protocolDict := [("POSI", 0)]
  , listeners := [(0, []), (1, []), (3, [])] }

/-- `leVal` of a one-byte slice is the byte itself. -/
theorem leVal_slice_one :
    ∀ (data : List Nat) (i : Nat), i < data.length →
      leVal (sliceBytes data i 1) = data.getD i 0 := by
  intro data
  induction data with
  | nil => intro i h; simp at h
  | cons b bs ih =>
    intro i h
    cases i with
    | zero => simp [sliceBytes, leVal]
    | succ n =>
      have hn : n < bs.length := by simpa using h
      have := ih n hn
      simpa [sliceBytes, List.drop_succ_cons, List.getD_cons_succ] using this

/-- Some value in `0 .. used.length` is missing from `used` (pigeonhole). -/
theorem exists_le_length_not_mem (used : List Nat) :
    ∃ j, j ≤ used.length ∧ j ∉ used := by
  by_contra h
  push_neg at h
  have hsub : Finset.range (used.length + 1) ⊆ used.toFinset := by
    intro j hj
    rw [List.mem_toFinset]
    have hj1 : j < used.length + 1 := Finset.mem_range.mp hj
    exact h j (by omega)
  have h1 : used.length + 1 ≤ used.toFinset.card := by
    simpa using Finset.card_le_card hsub
  have h2 : used.toFinset.card ≤ used.length := used.toFinset_card_le
  omega

/-- If some candidate within the fuel bound is unused, the id loop returns
an unused id and every smaller id from the start point is used. -/
theorem findFreeFrom_spec (used : List Nat) :
    ∀ (fuel cur : Nat), (∃ j, j ≤ fuel ∧ (cur + j) ∉ used) →
      findFreeFrom used fuel cur ∉ used ∧
        ∀ m, cur ≤ m → m < findFreeFrom used fuel cur → m ∈ used := by
  intro fuel
  induction fuel with
  | zero =>
    intro cur h
    obtain ⟨j, hj, hnm⟩ := h
    have hj0 : j = 0 := Nat.le_zero.mp hj
    subst hj0
    simp only [findFreeFrom]
    exact ⟨by simpa using hnm, fun m h1 h2 => absurd (Nat.lt_of_le_of_lt h1 h2) (lt_irrefl cur)⟩
  | succ n ih =>
    intro cur h
    obtain ⟨j, hj, hnm⟩ := h
    by_cases hc : cur ∈ used
    · have hj0 : j ≠ 0 := by
        rintro rfl
        simp only [Nat.add_zero] at hnm
        exact hnm hc
      obtain ⟨j1, rfl⟩ : ∃ j1, j = j1 + 1 := ⟨j - 1, by omega⟩
      have hex : ∃ k, k ≤ n ∧ (cur + 1 + k) ∉ used :=
        ⟨j1, by omega, by rwa [show cur + 1 + j1 = cur + (j1 + 1) by omega]⟩
      have hrec := ih (cur + 1) hex
      simp only [findFreeFrom, if_pos hc]
      refine ⟨hrec.1, fun m h1 h2 => ?_⟩
      rcases Nat.eq_or_lt_of_le h1 with heq | hlt
      · exact heq ▸ hc
      · exact hrec.2 m hlt h2
    · simp only [findFreeFrom, if_neg hc]
      exact ⟨hc, fun m h1 h2 => absurd (Nat.lt_of_le_of_lt h1 h2) (lt_irrefl cur)⟩

/-- The assigned listener id is unused and every smaller id is in use. -/
theorem freshListenerId_spec (used : List Nat) :
    freshListenerId used ∉ used ∧ ∀ m, m < freshListenerId used → m ∈ used := by
  obtain ⟨j, hj, hnm⟩ := exists_le_length_not_mem used
  have h := findFreeFrom_spec used (used.length + 1) 0 ⟨j, by omega, by simpa using hnm⟩
  exact ⟨h.1, fun m hm => h.2 m (Nat.zero_le m) hm⟩

/-- One reply step keeps the front of the queue. -/
theorem replyStep_cons (s : MPState) (a : MPMsg) (q : ListenerQueue) (p : String) :
    ∃ q1, replyStep s (a :: q) p = a :: q1 := by
  unfold replyStep
  cases s.pamOf p with
  | none => exact ⟨q ++ [MPMsg.noneMsg], by simp⟩
  | some b => exact ⟨q, rfl⟩

/-- The reply fold keeps the front of the queue. -/
theorem foldl_replyStep_cons (s : MPState) (a : MPMsg) :
    ∀ (l : List String) (q : ListenerQueue),
      ∃ q1, l.foldl (replyStep s) (a :: q) = a :: q1 := by
  intro l
  induction l with
  | nil => intro q; exact ⟨q, rfl⟩
  | cons p l ih =>
    intro q
    obtain ⟨q1, h1⟩ := replyStep_cons s a q p
    rw [List.foldl_cons, h1]
    exact ih q1

/-- The first message put on a registering listener's queue is its id. -/
theorem registrationReplies_head (s : MPState) (i : Nat) :
    (registrationReplies s i).head? = some (MPMsg.id i) := by
  unfold registrationReplies
  obtain ⟨q1, hq⟩ := foldl_replyStep_cons s (MPMsg.id i) s.protocol_ids []
  rw [hq]
  rfl

/-- C1: the claimed law `decode(encode(x)) == x` for every protocol and
block type fails on the code.  For the POSI setup block with a zero-length
group list, `payload` yields the four bytes header + count, yet
`from_data` applied to the count bytes raises `TypeError` because the
decoded fields are passed to the constructor in swapped positions; and the
BXPD data block's `payload` always raises `struct.error` on the
uninterpolated format string `'<B%dQ'`, so its encoding never exists. -/
theorem posi_setup_roundtrip_crashes :
    BS3PosiSetupBlock.payload posiSetupEx = Except.ok [1, 0, 0, 0] ∧
    BS3PosiSetupBlock.from_data posiSetupEx.header [0, 0] =
      Except.error "TypeError: iteration over non-sequence" ∧
    BS3BxpdDataBlock.payload bxpdDataEx = Except.error "bad char in struct format" :=
  ⟨rfl, rfl, rfl⟩

/-- C2: in the BXPD analog-chunk length coding, 254 is written as one byte
and 100000 as the escape byte 255 plus a 64-bit length as claimed, but a
chunk of length 255 is also written as the single raw byte 255 (the
encoder's condition is `< 256`), which the decoder interprets as the escape
marker: decoding the encoding of a 255-sample zero chunk yields chunk
length 0, not 255.  Moreover the full `payload` of any BXPD data block,
including one with a 255-sample chunk, raises `struct.error` before the
chunks are written. -/
theorem bxpd_escape_boundary_bug :
    anchanLenBytes 254 = Except.ok [254] ∧
    anchanLenBytes 255 = Except.ok [255] ∧
    anchanLenBytes 100000 = Except.ok [255, 160, 134, 1, 0, 0, 0, 0, 0] ∧
    (packAnchan (List.replicate 255 0)).bind (fun bs => readAnchanLen bs 0) =
      Except.ok (0, 9) ∧
    BS3BxpdDataBlock.payload bxpdData255 = Except.error "bad char in struct format" := by
  refine ⟨rfl, rfl, rfl, ?_, rfl⟩
  set_option maxRecDepth 100000 in rfl

/-- C3: the frame header's `payload` never produces bytes, for
`block_index = 0` as for `block_index = 2^64 - 1`: the signature
`'<BIHHQqB4sQ'` has nine fields but `payload` passes eight values, so
`struct.pack` raises, and `decode(encode(h)) == h` cannot hold. -/
theorem frame_header_payload_crashes :
    BS3DataBlockHeader.signature.length = 9 ∧
    BS3DataBlockHeader.payload frameHeaderEx =
      Except.error "pack expected 9 items for packing (got 8)" ∧
    BS3DataBlockHeader.payload frameHeaderMaxIdx =
      Except.error "pack expected 9 items for packing (got 8)" :=
  ⟨rfl, rfl, rfl⟩

/-- C4: the frame header wire format is not 31 bytes: `calcsize` of the
signature is 38 (its trailing reserved field is `Q`, 8 bytes), while the
class itself declares `header_size = 31`.  A well-formed 31-byte header
image is rejected with the undersized-data error, and `from_data` accepts
the 38-byte image. -/
theorem frame_header_wire_length_is_38 :
    BS3DataBlockHeader.header_size = 31 ∧
    BS3DataBlockHeader.len = 38 ∧
    frame31.length = 31 ∧
    BS3DataBlockHeader.from_data frame31 = Except.error "data must have len >= 38" ∧
    frame38.length = 38 ∧
    BS3DataBlockHeader.from_data frame38 = Except.ok frameHeaderEx :=
  ⟨rfl, rfl, rfl, rfl, rfl, rfl⟩

/-- C5: a listener that registers while a setup block is cached does not
receive that block: the reply loop's condition is `is None`, so after the
SORT setup block is cached the registration reply is only the id, while a
registration before any setup block additionally receives a literal `None`
per preamble-less protocol. -/
theorem registration_reply_omits_cached_preamble :
    handleDataItem { mpInit ["BXPD", "SORT"] with listeners := [(0, [])] } sortSetupEx =
      Except.ok mpAfterSetup ∧
    mpAfterSetup.pamOf "SORT" = some sortSetupEx ∧
    (handleRegistration mpAfterSetup).2 = [MPMsg.id 1] ∧
    (handleRegistration (mpInit ["BXPD", "SORT"])).2 =
      [MPMsg.id 0, MPMsg.noneMsg, MPMsg.noneMsg] :=
  ⟨rfl, rfl, rfl, rfl⟩

/-- C6: caching a SORT setup block also replaces the cached preamble of
BXPD, because `dict(zip(ids, [[None] * 2] * n))` maps every protocol to the
same 2-element list; the block is still forwarded to the registered
listener. -/
theorem preamble_cache_aliasing :
    (mpInit ["BXPD", "SORT"]).pamOf "BXPD" = none ∧
    (mpInit ["BXPD", "SORT"]).pamOf "SORT" = none ∧
    handleDataItem { mpInit ["BXPD", "SORT"] with listeners := [(0, [])] } sortSetupEx =
      Except.ok mpAfterSetup ∧
    mpAfterSetup.pamOf "BXPD" = some sortSetupEx ∧
    mpAfterSetup.listeners = [(0, [MPMsg.block sortSetupEx])] :=
  ⟨rfl, rfl, rfl, rfl, rfl⟩

/-- C7: every registration is assigned the smallest non-negative id not in
use: the new id heads the reply queue, is appended to the listener dict, is
not among the ids in use, and every smaller id is in use. -/
theorem registration_assigns_smallest_unused_id (s : MPState) :
    (handleRegistration s).2.head? =
      some (MPMsg.id (freshListenerId (s.listeners.map Prod.fst))) ∧
    (handleRegistration s).1.listeners.map Prod.fst =
      s.listeners.map Prod.fst ++ [freshListenerId (s.listeners.map Prod.fst)] ∧
    freshListenerId (s.listeners.map Prod.fst) ∉ s.listeners.map Prod.fst ∧
    ∀ m, m < freshListenerId (s.listeners.map Prod.fst) →
      m ∈ s.listeners.map Prod.fst := by
  refine ⟨registrationReplies_head s _, ?_,
    (freshListenerId_spec _).1, fun m hm => (freshListenerId_spec _).2 m hm⟩
  show (s.listeners ++ [(freshListenerId (s.listeners.map Prod.fst),
    registrationReplies s (freshListenerId (s.listeners.map Prod.fst)))]).map Prod.fst = _
  simp

/-- C7 at a concrete state whose listener ids are 0, 1 and 3: the assigned
id 2 is unused and heads the reply. -/
theorem registration_assigns_smallest_unused_id_witness :
    freshListenerId [0, 1, 3] ∉ [0, 1, 3] ∧
    (handleRegistration mpStateEx).2.head? = some (MPMsg.id (freshListenerId [0, 1, 3])) := by
  have h := registration_assigns_smallest_unused_id mpStateEx
  exact ⟨h.2.2.1, h.1⟩

/-- C8 as stated is false at explicit inputs: on an undersized frame the
reader's thread dies with the uncaught `BS3Error` and never reaches its
shutdown state (`_is_shutdown.set()` is skipped, no sentinel), and an
ordinary 38-byte frame with version byte 4 is equally fatal, so the
undersized frame is not the only fatal per-frame decode error. -/
theorem reader_fatal_error_counterexample :
    undersizedFrame.length < BS3DataBlockHeader.len ∧
    runReader posiEntry [PollItem.frame undersizedFrame] =
      { outputs := [ReaderMsg.started], shutdownEventSet := false
      , fatal := some "bad block size!" } ∧
    BS3DataBlockHeader.len ≤ badVersionFrame.length ∧
    runReader posiEntry [PollItem.frame badVersionFrame] =
      { outputs := [ReaderMsg.started], shutdownEventSet := false
      , fatal := some "invalid protocol version or blocktype!" } :=
  ⟨by decide, rfl, by decide, rfl⟩

/-- C8 amended: an undersized frame raises `BS3Error('bad block size!')`,
and any fatal frame exception — the undersized error or any tier-1/tier-2
decode exception — terminates the loop at that frame without the shutdown
epilogue: no sentinel, `_is_shutdown` never set, later polls unprocessed. -/
theorem reader_fatal_error_behavior (entry : ProtocolEntry) (d : List Nat)
    (polls : List PollItem) :
    (d.length < BS3DataBlockHeader.len →
      processFrame entry d =
        { output := [], released := false, fatal := some "bad block size!" }) ∧
    (∀ e, (processFrame entry d).fatal = some e →
      runReader entry (PollItem.frame d :: polls) =
        { outputs := ReaderMsg.started :: (processFrame entry d).output
        , shutdownEventSet := false, fatal := some e }) := by
  constructor
  · intro h
    unfold processFrame
    rw [if_pos h]
  · intro e he
    simp only [runReader, runLoop, he]

/-- C8 amended at the explicit inputs of the counterexample. -/
theorem reader_fatal_error_behavior_witness :
    processFrame posiEntry undersizedFrame =
      { output := [], released := false, fatal := some "bad block size!" } ∧
    runReader posiEntry [PollItem.frame badVersionFrame] =
      { outputs := [ReaderMsg.started], shutdownEventSet := false
      , fatal := some "invalid protocol version or blocktype!" } := by
  constructor
  · exact (reader_fatal_error_behavior posiEntry undersizedFrame []).1 (by decide)
  · exact (reader_fatal_error_behavior posiEntry badVersionFrame []).2
      "invalid protocol version or blocktype!" rfl

/-- C9: a decodable frame whose protocol code is not the reader's bound
protocol, or whose registered-version tier-2 header carries an unregistered
block type, is dropped: nothing is pushed, `releaseBlock` runs, no
exception escapes, and the loop proceeds exactly as if the frame had not
been delivered. -/
theorem reader_drops_foreign_and_unknown_frames (entry : ProtocolEntry)
    (data : List Nat) (hdr : BS3DataBlockHeader)
    (hlen : BS3DataBlockHeader.len ≤ data.length)
    (hdec : BS3DataBlockHeader.from_data (data.take BS3DataBlockHeader.len) =
      Except.ok hdr) :
    (hdr.block_code ≠ entry.code →
      processFrame entry data = { output := [], released := true, fatal := none }) ∧
    (∀ bt, hdr.block_code = entry.code →
      tier2HeaderDecode entry (sliceBytes data BS3DataBlockHeader.len 2) = Except.ok bt →
      bt ∉ entry.blockTypes →
      processFrame entry data = { output := [], released := true, fatal := none }) ∧
    (∀ rest, processFrame entry data = { output := [], released := true, fatal := none } →
      runLoop entry (PollItem.frame data :: rest) = runLoop entry rest) := by
  have hne : ¬data.length < BS3DataBlockHeader.len := by omega
  refine ⟨?_, ?_, ?_⟩
  · intro hcode
    unfold processFrame
    rw [if_neg hne, hdec]
    exact if_neg hcode
  · intro bt hcode htier hmem
    unfold processFrame
    rw [if_neg hne, hdec]
    show (if hdr.block_code = entry.code then _ else _) = _
    rw [if_pos hcode, htier]
    exact if_neg hmem
  · intro rest hstep
    simp only [runLoop, hstep, List.nil_append]

/-- C9 at explicit frames: a `'WOOT'`-coded frame delivered to the POSI
reader and a POSI frame with unregistered block type 7 are both dropped. -/
theorem reader_drops_foreign_and_unknown_frames_witness :
    processFrame posiEntry foreignFrame =
      { output := [], released := true, fatal := none } ∧
    processFrame posiEntry unknownTypeFrame =
      { output := [], released := true, fatal := none } := by
  constructor
  · exact (reader_drops_foreign_and_unknown_frames posiEntry foreignFrame
      ⟨0, 0, 0, 0, [87, 79, 79, 84]⟩ (by decide) rfl).1 (by decide)
  · exact (reader_drops_foreign_and_unknown_frames posiEntry unknownTypeFrame
      ⟨0, 0, 0, 0, [80, 79, 83, 73]⟩ (by decide) rfl).2.1 7 rfl rfl (by decide)

/-- C10: when the version byte is the supported 3 but the type-code byte at
wire offset 25 — the seventh field of `'<BIHHQqB4sQ'`, directly before the
4-byte protocol code — is not 1, `from_data` rejects the input; the
decoded `BS3DataBlockHeader` has no type-code field, the byte is checked
and dropped. -/
theorem frame_header_rejects_bad_type_code (data : List Nat)
    (hlen : BS3DataBlockHeader.len ≤ data.length)
    (_hver : data.getD 0 0 = BS3DataBlockHeader.version)
    (htcd : data.getD 25 0 ≠ 1) :
    BS3DataBlockHeader.from_data data =
      Except.error "invalid protocol version or blocktype!" := by
  have hlen38 : BS3DataBlockHeader.len = 38 := rfl
  have h25 : 25 < data.length := by omega
  have htcd1 : leVal (sliceBytes data 25 1) ≠ BS3DataBlockHeader.type_code := by
    rw [leVal_slice_one data 25 h25]
    exact htcd
  unfold BS3DataBlockHeader.from_data
  rw [if_neg (by omega : ¬data.length < BS3DataBlockHeader.len)]
  exact if_pos (Or.inr htcd1)

/-- C10 at an explicit input: version byte 3, type-code byte 0. -/
theorem frame_header_rejects_bad_type_code_witness :
    BS3DataBlockHeader.from_data (3 :: List.replicate 37 0) =
      Except.error "invalid protocol version or blocktype!" :=
  frame_header_rejects_bad_type_code (3 :: List.replicate 37 0)
    (by decide) (by decide) (by decide)

end Blockstream
